import Mathlib

/-!
Verification of the room-reservation system (room_server.py, activity_server.py,
reservation_server.py): a shallow embedding of the three request handlers and of
the coordinator's cross-service orchestration, together with proofs and
refutations of the specification's claims about them.

Modelling conventions:
* SQLite tables become Lean lists; a SELECT-by-key becomes list membership or
  List.find?, INSERT appends, DELETE filters.
* A handler that returns a Python response string becomes a function producing a
  Resp record (status code, reason phrase, HTML title, HTML body); renderResp
  produces the exact wire string the Python code builds.
* A Python function that can fall off the end (returning None) is modelled with
  Option: none is the absent response.
* The coordinator talks to the other two servers by substring-matching on their
  rendered response strings, exactly as the Python code does on the bytes it
  reads from the socket; request parsing/framing is outside the embedded core,
  so parameters are passed directly.
-/

/-- Is pat a prefix of s (on character lists)? Used to model Python's
substring containment test (the in operator on str). -/
def hasPrefixL : List Char → List Char → Bool
  | _, [] => true
  | [], _ :: _ => false
  | a :: as, b :: bs => a == b && hasPrefixL as bs

/-- Does pat occur as a contiguous substring of s (on character lists)? -/
def hasInfixL : List Char → List Char → Bool
  | [], pat => hasPrefixL [] pat
  | a :: as, pat => hasPrefixL (a :: as) pat || hasInfixL as pat

/-- Python's pat in s substring test. -/
def strContains (s pat : String) : Bool :=
  hasInfixL s.data pat.data

/-- Python's str.join: joinSep sep [a, b, c] = a ++ sep ++ b ++ sep ++ c. -/
def joinSep (sep : String) : List String → String
  | [] => ""
  | [x] => x
  | x :: y :: xs => x ++ sep ++ joinSep sep (y :: xs)

/-- An HTTP response as the Python servers build it: status code, reason
phrase, and the title and body interpolated into the shared HTML template. -/
structure Resp where
  status : Nat
  reason : String
  title : String
  body : String
deriving DecidableEq, Repr

/-- The servers' shared base_html template with title and body filled in. -/
def baseHtml (title body : String) : String :=
  "<HTML>\n<HEAD>\n<TITLE>" ++ title ++ "</TITLE>\n</HEAD>\n<BODY>" ++ body ++ "</BODY>\n</HTML>"

/-- The full response string a server writes to the socket:
f-string HTTP/1.1 code reason, blank line, HTML document. -/
def renderResp (r : Resp) : String :=
  "HTTP/1.1 " ++ toString r.status ++ " " ++ r.reason ++ "\n\n" ++ baseHtml r.title r.body

/-- 400 Bad Request response with the given body, as built by the servers. -/
def badReq (body : String) : Resp := ⟨400, "Bad Request", "Error", body⟩

/-- 403 Forbidden response with the given body, as built by the servers. -/
def forbidden (body : String) : Resp := ⟨403, "Forbidden", "Error", body⟩

/-- 200 OK response with the given title and body, as built by the servers. -/
def okResp (title body : String) : Resp := ⟨200, "OK", title, body⟩

/-- One row of the room server's reservations table:
(name text, day integer, hour integer). -/
structure ResRow where
  name : String
  day : Int
  hour : Int
deriving DecidableEq, Repr

/-- The room server's database: the rooms table (one name per row) and the
reservations table, in insertion order. -/
structure RoomState where
  rooms : List String
  reservations : List ResRow
deriving DecidableEq, Repr

namespace RoomServer

/-- SELECT * FROM reservations WHERE name=? AND day=? AND hour=? — fetchone
is not None iff some row matches. -/
def occupied (s : RoomState) (name : String) (day hour : Int) : Bool :=
  s.reservations.any (fun r => r.name == name && r.day == day && r.hour == hour)

/-- SELECT hour FROM reservations WHERE name=? AND day=? — the hours of the
matching rows, in table order. -/
def reservedHours (s : RoomState) (name : String) (day : Int) : List Int :=
  (s.reservations.filter (fun r => r.name == name && r.day == day)).map (fun r => r.hour)

/-- list(range(9, 18)) — the candidate hours of a day. -/
def baseHours : List Int := [9, 10, 11, 12, 13, 14, 15, 16, 17]

/-- The availability list get_check_availability computes: start from
list(range(9,18)) and availability.remove(hour) for each reserved hour
(remove drops the first occurrence; the try/except pass makes a missing
hour a no-op, which List.erase also is). -/
def availabilityHours (s : RoomState) (name : String) (day : Int) : List Int :=
  (reservedHours s name day).foldl (fun acc h => acc.erase h) baseHours

/-- RoomServer.get_add: 403 if a room with the name exists, else insert. -/
def get_add (s : RoomState) (name : String) : Resp × RoomState :=
  if s.rooms.contains name then
    (forbidden "Room already exists", s)
  else
    (okResp "Room Added" ("Room with name " ++ name ++ " is successfully added."),
     { s with rooms := s.rooms ++ [name] })

/-- RoomServer.get_remove: 403 if no room with the name exists, else DELETE
(which removes every matching row). -/
def get_remove (s : RoomState) (name : String) : Resp × RoomState :=
  if s.rooms.contains name then
    (okResp "Room Removed" ("Room with name " ++ name ++ " is successfully removed"),
     { s with rooms := s.rooms.filter (fun r => r != name) })
  else
    (forbidden "Room does not exist", s)

/-- RoomServer.get_reserve. The source's loop
  for d in range(duration): check hour+d; if occupied return 403;
is mis-indented: the insertion loop and the 200 return sit INSIDE the loop
body, so the first iteration (d = 0) always returns — only hour+0 is ever
conflict-checked, and a non-positive duration makes range(duration) empty so
the function falls off the end and returns Python None (here: none).
The translation spells out that control flow directly. -/
def get_reserve (s : RoomState) (name : String) (day hour duration : Int) :
    Option (Resp × RoomState) :=
  if ¬ (1 ≤ day ∧ day ≤ 7) then some (badReq "Invalid day parameter", s)
  else if ¬ (9 ≤ hour ∧ hour ≤ 17) then some (badReq "Invalid hour parameter", s)
  else if hour + duration > 18 then some (badReq "Invalid duration parameter", s)
  else if ¬ s.rooms.contains name then some (badReq "Room does not exist", s)
  else if duration ≤ 0 then none
  else if occupied s name day hour then
    some (forbidden ("Room is already reserved at " ++ toString hour), s)
  else
    some (okResp "Reservation Successful" ("Room " ++ name ++ " is succesfuly reserved."),
      { s with reservations := s.reservations ++
          (List.range duration.toNat).map (fun d => ⟨name, day, hour + (d : Int)⟩) })

/-- RoomServer.get_check_availability: room check first (400 if unknown),
then day range check, then the availability listing joined with ',  '. -/
def get_check_availability (s : RoomState) (name : String) (day : Int) : Resp :=
  if ¬ s.rooms.contains name then badReq "Room Does not exist"
  else if ¬ (1 ≤ day ∧ day ≤ 7) then badReq "Invalid day paramater"
  else okResp "Availability"
    ("The following hours are available: " ++
      joinSep ",  " ((availabilityHours s name day).map toString))

end RoomServer

namespace ActivityServer

/-- ActivityServer.get_check: 200 "Activity Exists" if the name is in the
activities table, else 404 "Activity does not exist". -/
def get_check (acts : List String) (name : String) : Resp :=
  if acts.contains name then okResp "Activity Check" "Activity Exists"
  else ⟨404, "Not Found", "Activity Check", "Activity does not exist"⟩

end ActivityServer

/-- One row of the coordinator's reservations table:
(id INTEGER PRIMARY KEY, room, activity, day, hour, duration). -/
structure CoordRec where
  id : Nat
  room : String
  activity : String
  day : Int
  hour : Int
  duration : Int
deriving DecidableEq, Repr

/-- The coordinator's database. Rowids are assigned by sqlite as 1, 2, ...
in insertion order (no delete endpoint exists), so the next lastrowid is
length + 1. -/
structure CoordState where
  reservations : List CoordRec
deriving DecidableEq, Repr

/-- The coordinator's day_names table. -/
def dayNames : List String :=
  ["Monday", "Tuesday", "Wednesday", "Thursday", "Friday", "Saturday", "Sunday"]

/-- Python list indexing semantics: a non-negative index reads from the
front, a negative one wraps once from the back, anything else raises
IndexError (modelled as none). -/
def pyIndex (l : List String) (i : Int) : Option String :=
  if 0 ≤ i then l[i.toNat]?
  else if 0 ≤ i + l.length then l[(i + l.length).toNat]?
  else none

namespace ReservationServer

/-- The outcome of the coordinator's get_reserve: the response string sent
back to the client, whether the room engine was contacted, both stores
afterwards, and whether a Reservation record was committed. -/
structure CoordResult where
  response : String
  roomCalled : Bool
  roomDb : RoomState
  coordDb : CoordState
  committed : Bool
deriving DecidableEq, Repr

/-- The coordinator's handling of the room engine's reserve response
(reservation_server.py lines 94-107): relay the response verbatim if it
contains '400 Bad Request' or '403 Forbidden'; otherwise INSERT the record
and answer with the status line the source actually builds,
'HTTP/1.1 200 Bad Request', and the fresh id. Returns (response to client,
coordinator table afterwards, whether a record was committed). -/
def roomStep (cs : CoordState) (room activity : String) (day hour duration : Int)
    (roomResp : String) : String × CoordState × Bool :=
  if strContains roomResp "400 Bad Request" || strContains roomResp "403 Forbidden" then
    (roomResp, cs, false)
  else
    let rid := cs.reservations.length + 1
    ("HTTP/1.1 200 Bad Request\n\n" ++
       baseHtml "Reservation Succesfull" ("Reservation ID: " ++ toString rid),
     ⟨cs.reservations ++ [⟨rid, room, activity, day, hour, duration⟩]⟩,
     true)

/-- ReservationServer.get_reserve, composed with the two collaborators it
calls: first the activity check (relayed verbatim when its response contains
'404 Not Found', with no room call made), then the room engine's reserve.
When the room handler produces no response (Python None) the coordinator's
recv yields the empty string. -/
def get_reserve (acts : List String) (rs : RoomState) (cs : CoordState)
    (activity room : String) (day hour duration : Int) : CoordResult :=
  let actResp := renderResp (ActivityServer.get_check acts activity)
  if strContains actResp "404 Not Found" then
    ⟨actResp, false, rs, cs, false⟩
  else
    match RoomServer.get_reserve rs room day hour duration with
    | some (r, rs2) =>
      let st := roomStep cs room activity day hour duration (renderResp r)
      ⟨st.1, true, rs2, st.2.1, st.2.2⟩
    | none =>
      let st := roomStep cs room activity day hour duration ""
      ⟨st.1, true, rs, st.2.1, st.2.2⟩

/-- The aggregation loop of get_listavailability: for each (day, label)
pair query the room engine; if the rendered response contains
'404 Not Found' or '400 Bad Request' return it alone (aborting the
aggregate), else append the labelled body and continue. Also returns the
list of days actually queried, in order. -/
def availLoop (rs : RoomState) (room : String) : List (Int × String) → String → String × List Int
  | [], acc => (renderResp (okResp "Availabilities" acc), [])
  | (d, label) :: rest, acc =>
    let r := RoomServer.get_check_availability rs room d
    let rr := renderResp r
    if strContains rr "404 Not Found" || strContains rr "400 Bad Request" then
      (rr, [d])
    else
      let next := availLoop rs room rest
        (acc ++ "For " ++ label ++ ": " ++ r.body ++ "<br></br>")
      (next.1, d :: next.2)

/-- ReservationServer.get_listavailability: with a day, one
(day, day_names[day-1]) query — building the label raises IndexError
(none) when day-1 is out of Python range; without a day, the seven pairs
for days 1..7 in order. -/
def get_listavailability (rs : RoomState) (room : String) (dayOpt : Option Int) :
    Option (String × List Int) :=
  match dayOpt with
  | some d =>
    match pyIndex dayNames (d - 1) with
    | none => none
    | some label => some (availLoop rs room [(d, label)] "")
  | none =>
    some (availLoop rs room
      ((List.range 7).map (fun (i : Nat) => ((i : Int) + 1, dayNames.getD i ""))) "")

/-- SELECT * FROM reservations WHERE id=? — id is the primary key, so the
first matching row is the row. -/
def findRec (cs : CoordState) (id : Nat) : Option CoordRec :=
  cs.reservations.find? (fun r => r.id == id)

/-- The body template of ReservationServer.get_display, with the weekday
name already looked up. -/
def displayBody (room activity dayName : String) (hour duration : Int) : String :=
  "\n        <h1>Reservation Details</h1>\n        <p>Room name: " ++ room ++
  "</p>\n        <p>Activity name: " ++ activity ++
  "</p>\n        <p>Day: " ++ dayName ++
  "</p>\n        <p>Time: " ++ toString hour ++ ":00 - " ++ toString (hour + duration) ++
  ":00</p>\n        <p>Duration: " ++ toString duration ++ " hours</p>\n        "

/-- ReservationServer.get_display: bare 404 line when the id is unknown,
otherwise the rendered record; day_names[day - 1] raises IndexError (none)
when the stored day is out of Python range. -/
def get_display (cs : CoordState) (id : Nat) : Option String :=
  match findRec cs id with
  | none => some "HTTP/1.1 404 Not Found"
  | some r =>
    match pyIndex dayNames (r.day - 1) with
    | none => none
    | some dn =>
      some ("HTTP/1.1 200 OK\n\n" ++
        baseHtml "Reservation Info" (displayBody r.room r.activity dn r.hour r.duration))

end ReservationServer

/-! ### Helper lemmas about the substring test -/

theorem hasPrefixL_mem {s pat : List Char} (h : hasPrefixL s pat = true) :
    ∀ c ∈ pat, c ∈ s := by
  induction pat generalizing s with
  | nil => intro c hc; cases hc
  | cons b bs ih =>
    cases s with
    | nil => simp [hasPrefixL] at h
    | cons a as =>
      simp only [hasPrefixL, Bool.and_eq_true, beq_iff_eq] at h
      intro c hc
      rcases List.mem_cons.mp hc with rfl | hc
      · rw [← h.1]; exact List.mem_cons_self _ _
      · exact List.mem_cons_of_mem _ (ih h.2 c hc)

theorem hasInfixL_mem {s pat : List Char} (h : hasInfixL s pat = true) :
    ∀ c ∈ pat, c ∈ s := by
  induction s with
  | nil =>
    intro c hc
    simp only [hasInfixL] at h
    exact absurd hc (by cases pat <;> simp_all [hasPrefixL])
  | cons a as ih =>
    simp only [hasInfixL, Bool.or_eq_true] at h
    intro c hc
    rcases h with h | h
    · exact hasPrefixL_mem h c hc
    · exact List.mem_cons_of_mem _ (ih h c hc)

theorem strContains_eq_false_of_missing_char {s pat : String} {c : Char}
    (hc : c ∈ pat.data) (hs : c ∉ s.data) : strContains s pat = false := by
  by_contra h
  exact hs (hasInfixL_mem (Bool.of_not_eq_false h) c hc)

theorem hasPrefixL_append {s t pat : List Char} (h : hasPrefixL s pat = true) :
    hasPrefixL (s ++ t) pat = true := by
  induction pat generalizing s with
  | nil => simp [hasPrefixL]
  | cons b bs ih =>
    cases s with
    | nil => simp [hasPrefixL] at h
    | cons a as =>
      simp only [hasPrefixL, Bool.and_eq_true] at h
      simpa [hasPrefixL, h.1] using ih h.2

theorem hasInfixL_append_left {s t pat : List Char} (h : hasInfixL s pat = true) :
    hasInfixL (s ++ t) pat = true := by
  induction s with
  | nil =>
    cases pat with
    | nil => cases t <;> simp [hasInfixL, hasPrefixL]
    | cons b bs => simp [hasInfixL, hasPrefixL] at h
  | cons a as ih =>
    simp only [hasInfixL, Bool.or_eq_true] at h ⊢
    rcases h with h | h
    · exact Or.inl (hasPrefixL_append h)
    · exact Or.inr (ih h)

theorem strContains_append_left {a pat : String} (b : String)
    (h : strContains a pat = true) : strContains (a ++ b) pat = true := by
  simpa [strContains, String.data_append] using hasInfixL_append_left (t := b.data) h

/-! ### Helper lemmas about the availability computation -/

theorem foldl_erase_sublist (hs : List Int) (l : List Int) :
    List.Sublist (hs.foldl (fun acc h => acc.erase h) l) l := by
  induction hs generalizing l with
  | nil => exact List.Sublist.refl l
  | cons h t ih =>
    exact (ih (l.erase h)).trans (List.erase_sublist h l)

theorem mem_foldl_erase (hs : List Int) (l : List Int) (hn : l.Nodup) (x : Int) :
    x ∈ hs.foldl (fun acc h => acc.erase h) l ↔ x ∈ l ∧ x ∉ hs := by
  induction hs generalizing l with
  | nil => simp
  | cons h t ih =>
    simp only [List.foldl_cons]
    rw [ih (l.erase h) (hn.erase h)]
    rw [hn.mem_erase_iff]
    simp only [List.mem_cons]
    tauto

theorem availabilityHours_sublist (s : RoomState) (name : String) (day : Int) :
    List.Sublist (RoomServer.availabilityHours s name day) RoomServer.baseHours :=
  foldl_erase_sublist _ _

theorem baseHours_nodup : RoomServer.baseHours.Nodup := by decide

theorem availabilityHours_nodup (s : RoomState) (name : String) (day : Int) :
    (RoomServer.availabilityHours s name day).Nodup :=
  List.Nodup.sublist (availabilityHours_sublist s name day) baseHours_nodup

theorem mem_availabilityHours (s : RoomState) (name : String) (day : Int) (x : Int) :
    x ∈ RoomServer.availabilityHours s name day ↔
      x ∈ RoomServer.baseHours ∧ x ∉ RoomServer.reservedHours s name day :=
  mem_foldl_erase _ _ baseHours_nodup x

/-! ### Character-set bounds for the availability listing

The coordinator recognises failure by substring-matching on the response
text, so to show a successful availability response is never mistaken for a
failure we bound the characters the variable part of the response (the
joined hour listing) can contain. -/

/-- The characters that can appear in the joined hour listing. -/
def availChars : List Char := ",  0123456789".data

theorem toString_baseHours_chars :
    ∀ x ∈ RoomServer.baseHours, ∀ c ∈ (toString x).data, c ∈ availChars := by decide

theorem joinSep_chars (sep : String) (parts : List String) (ok : List Char)
    (hsep : ∀ c ∈ sep.data, c ∈ ok) (hparts : ∀ p ∈ parts, ∀ c ∈ p.data, c ∈ ok) :
    ∀ c ∈ (joinSep sep parts).data, c ∈ ok := by
  induction parts with
  | nil =>
    intro c hc
    simp only [joinSep] at hc
    exact absurd hc (List.not_mem_nil c)
  | cons x xs ih =>
    cases xs with
    | nil => exact fun c hc => hparts x (List.mem_cons_self x []) c hc
    | cons y ys =>
      intro c hc
      rw [show joinSep sep (x :: y :: ys) = x ++ sep ++ joinSep sep (y :: ys) from rfl] at hc
      simp only [String.data_append, List.mem_append] at hc
      rcases hc with (hc | hc) | hc
      · exact hparts x (List.mem_cons_self x _) c hc
      · exact hsep c hc
      · exact ih (fun p hp => hparts p (List.mem_cons_of_mem x hp)) c hc

theorem availListing_chars (s : RoomState) (name : String) (day : Int) :
    ∀ c ∈ (joinSep ",  " ((RoomServer.availabilityHours s name day).map toString)).data,
      c ∈ availChars := by
  apply joinSep_chars
  · decide
  · intro p hp
    rcases List.mem_map.mp hp with ⟨x, hx, rfl⟩
    exact toString_baseHours_chars x ((availabilityHours_sublist s name day).subset hx)

/-- A successful availability response is never mistaken for a failure by
the coordinator: neither '404 Not Found' nor '400 Bad Request' occurs in
its rendered text (the pattern characters 'N' and 'q' cannot appear). -/
theorem checkavail_ok_render_clean (s : RoomState) (name : String) (day : Int)
    (hroom : s.rooms.contains name = true) (hday : 1 ≤ day ∧ day ≤ 7) :
    RoomServer.get_check_availability s name day =
      okResp "Availability" ("The following hours are available: " ++
        joinSep ",  " ((RoomServer.availabilityHours s name day).map toString)) ∧
    strContains (renderResp (RoomServer.get_check_availability s name day))
      "404 Not Found" = false ∧
    strContains (renderResp (RoomServer.get_check_availability s name day))
      "400 Bad Request" = false := by
  have heq : RoomServer.get_check_availability s name day =
      okResp "Availability" ("The following hours are available: " ++
        joinSep ",  " ((RoomServer.availabilityHours s name day).map toString)) := by
    unfold RoomServer.get_check_availability
    rw [if_neg (not_not_intro hroom), if_neg (not_not_intro hday)]
  refine ⟨heq, ?_, ?_⟩
  · rw [heq]
    apply strContains_eq_false_of_missing_char (c := 'N')
    · decide
    · intro hmem
      simp only [renderResp, okResp, baseHtml, String.data_append] at hmem
      simp +decide [List.mem_append] at hmem
      exact absurd (availListing_chars s name day 'N' hmem) (by decide)
  · rw [heq]
    apply strContains_eq_false_of_missing_char (c := 'q')
    · decide
    · intro hmem
      simp only [renderResp, okResp, baseHtml, String.data_append] at hmem
      simp +decide [List.mem_append] at hmem
      exact absurd (availListing_chars s name day 'q' hmem) (by decide)

/-! ### Helper lemma about find? on an appended table -/

theorem find?_append_of_none {α : Type} (p : α → Bool) (l₁ l₂ : List α)
    (h : ∀ a ∈ l₁, p a = false) : (l₁ ++ l₂).find? p = l₂.find? p := by
  induction l₁ with
  | nil => rfl
  | cons a as ih =>
    simp only [List.cons_append, List.find?_cons, h a (List.mem_cons_self a as)]
    exact ih (fun b hb => h b (List.mem_cons_of_mem a hb))

/-! ### Claims about the Room Availability Engine -/

/-- C1: the spec demands Conflict (403) whenever ANY of the duration
consecutive hours starting at hour is occupied. The code checks only the
first hour: with room A registered and (A, day 1, hour 10) already
reserved, reserve(A, 1, 9, 2) succeeds with 200 and books hours 9 and 10,
double-booking hour 10. The source's own comments (room_server.py lines
147 and 155) state the intended any-hour check, so this is a code bug
introduced by the mis-indented insertion loop. -/
theorem C1_reserve_checks_only_first_hour :
    RoomServer.get_reserve ⟨["A"], [⟨"A", 1, 10⟩]⟩ "A" 1 9 2 =
      some (okResp "Reservation Successful" "Room A is succesfuly reserved.",
        ⟨["A"], [⟨"A", 1, 10⟩, ⟨"A", 1, 9⟩, ⟨"A", 1, 10⟩]⟩) := by
  decide

/-- C2: the spec's exclusivity invariant (at most one committed reservation
per room/day/hour) is violated by a request sequence reachable from the
empty store: register room A, then reserve(A,1,10,1) and reserve(A,1,9,2)
both succeed with 200, after which the slot (A, day 1, hour 10) is
occupied by two committed reservations. -/
theorem C2_double_booking_reachable :
    RoomServer.get_add ⟨[], []⟩ "A" =
      (okResp "Room Added" "Room with name A is successfully added.", ⟨["A"], []⟩) ∧
    RoomServer.get_reserve ⟨["A"], []⟩ "A" 1 10 1 =
      some (okResp "Reservation Successful" "Room A is succesfuly reserved.",
        ⟨["A"], [⟨"A", 1, 10⟩]⟩) ∧
    RoomServer.get_reserve ⟨["A"], [⟨"A", 1, 10⟩]⟩ "A" 1 9 2 =
      some (okResp "Reservation Successful" "Room A is succesfuly reserved.",
        ⟨["A"], [⟨"A", 1, 10⟩, ⟨"A", 1, 9⟩, ⟨"A", 1, 10⟩]⟩) ∧
    ((⟨["A"], [⟨"A", 1, 10⟩, ⟨"A", 1, 9⟩, ⟨"A", 1, 10⟩]⟩ : RoomState).reservations.filter
        (fun r => r == ⟨"A", 1, 10⟩)).length = 2 := by
  refine ⟨by decide, by decide, by decide, by decide⟩

/-- C3 counterexample: at the empty store, deregister of the absent room
A answers 403, and reserve/availability on the unknown room A answer 400 —
none of the three unknown-room failures carries the claimed 404 status. -/
theorem C3_counterexample :
    ¬ ((RoomServer.get_remove ⟨[], []⟩ "A").1.status = 404) ∧
    ¬ ((RoomServer.get_reserve ⟨[], []⟩ "A" 1 9 1).map (fun p => p.1.status) = some 404) ∧
    ¬ ((RoomServer.get_check_availability ⟨[], []⟩ "A" 1).status = 404) := by
  decide

/-- C3 amended: every failure caused by an unknown room is reported as 403
Forbidden for deregister and as 400 Bad Request for reserve (with valid
parameters) and for availability; the room engine never uses 404. -/
theorem C3_unknown_room_statuses (s : RoomState) (name : String)
    (day hour duration : Int) (habs : s.rooms.contains name = false)
    (hday : 1 ≤ day ∧ day ≤ 7) (hhour : 9 ≤ hour ∧ hour ≤ 17)
    (hdur : hour + duration ≤ 18) :
    RoomServer.get_remove s name = (forbidden "Room does not exist", s) ∧
    RoomServer.get_reserve s name day hour duration = some (badReq "Room does not exist", s) ∧
    RoomServer.get_check_availability s name day = badReq "Room Does not exist" := by
  refine ⟨?_, ?_, ?_⟩
  · unfold RoomServer.get_remove
    rw [if_neg (by rw [habs]; simp)]
  · unfold RoomServer.get_reserve
    rw [if_neg (not_not_intro hday), if_neg (not_not_intro hhour),
        if_neg (by omega), if_pos (by rw [habs]; simp)]
  · unfold RoomServer.get_check_availability
    rw [if_pos (by rw [habs]; simp)]

theorem C3_unknown_room_statuses_witness :
    (⟨[], []⟩ : RoomState).rooms.contains "A" = false ∧
    RoomServer.get_remove ⟨[], []⟩ "A" = (forbidden "Room does not exist", ⟨[], []⟩) ∧
    RoomServer.get_reserve ⟨[], []⟩ "A" 1 9 1 = some (badReq "Room does not exist", ⟨[], []⟩) ∧
    RoomServer.get_check_availability ⟨[], []⟩ "A" 1 = badReq "Room Does not exist" := by
  have h := C3_unknown_room_statuses ⟨[], []⟩ "A" 1 9 1 (by decide) (by decide)
    (by decide) (by decide)
  exact ⟨by decide, h.1, h.2.1, h.2.2⟩

/-- C4: reserve is all-or-nothing on failure — whenever the engine answers
Conflict (403), the room/day slot state after the call equals the state
before it (the conflict return happens before any insertion). -/
theorem C4_conflict_is_all_or_nothing (s : RoomState) (name : String)
    (day hour duration : Int) (resp : Resp) (s2 : RoomState)
    (h : RoomServer.get_reserve s name day hour duration = some (resp, s2))
    (h403 : resp.status = 403) : s2 = s := by
  unfold RoomServer.get_reserve at h
  split_ifs at h with h1 h2 h3 h4 h5 h6 <;>
    first
      | (cases h; rfl)
      | (cases h; simp [okResp] at h403)

theorem C4_conflict_is_all_or_nothing_witness :
    RoomServer.get_reserve ⟨["A"], [⟨"A", 1, 9⟩]⟩ "A" 1 9 1 =
      some (forbidden "Room is already reserved at 9", ⟨["A"], [⟨"A", 1, 9⟩]⟩) ∧
    (⟨["A"], [⟨"A", 1, 9⟩]⟩ : RoomState) = ⟨["A"], [⟨"A", 1, 9⟩]⟩ :=
  ⟨by decide,
   C4_conflict_is_all_or_nothing ⟨["A"], [⟨"A", 1, 9⟩]⟩ "A" 1 9 1
     (forbidden "Room is already reserved at 9") ⟨["A"], [⟨"A", 1, 9⟩]⟩ (by decide) rfl⟩

/-- C5: a coordinator reserve whose activity is not in the Activity
Registry stops after relaying the registry's 404 response: the room engine
is never contacted, no Reservation record is written, and both stores are
unchanged. -/
theorem C5_unknown_activity_stops_saga (acts : List String) (rs : RoomState)
    (cs : CoordState) (activity room : String) (day hour duration : Int)
    (habs : acts.contains activity = false) :
    ReservationServer.get_reserve acts rs cs activity room day hour duration =
      ⟨renderResp (ActivityServer.get_check acts activity), false, rs, cs, false⟩ := by
  have hcheck : ActivityServer.get_check acts activity =
      ⟨404, "Not Found", "Activity Check", "Activity does not exist"⟩ := by
    unfold ActivityServer.get_check
    rw [if_neg (by rw [habs]; simp)]
  unfold ReservationServer.get_reserve
  rw [hcheck, if_pos (by decide)]

theorem C5_unknown_activity_stops_saga_witness :
    ([] : List String).contains "Yoga" = false ∧
    ReservationServer.get_reserve [] ⟨["A101"], []⟩ ⟨[]⟩ "Yoga" "A101" 2 10 2 =
      ⟨renderResp (ActivityServer.get_check [] "Yoga"), false, ⟨["A101"], []⟩, ⟨[]⟩, false⟩ :=
  ⟨rfl, C5_unknown_activity_stops_saga [] ⟨["A101"], []⟩ ⟨[]⟩ "Yoga" "A101" 2 10 2 rfl⟩

/-- C10: the coordinator treats the room-engine step as successful and
commits a Reservation record exactly when the room response does not
contain the substring '400 Bad Request' and does not contain
'403 Forbidden' — in particular it commits on the empty response; no
positive match on a 200 status occurs anywhere in the decision. -/
theorem C10_commit_iff_no_failure_substring (cs : CoordState) (room activity : String)
    (day hour duration : Int) (roomResp : String) :
    ((ReservationServer.roomStep cs room activity day hour duration roomResp).2.2 = true ↔
      (strContains roomResp "400 Bad Request" = false ∧
       strContains roomResp "403 Forbidden" = false)) ∧
    (ReservationServer.roomStep cs room activity day hour duration "").2.2 = true := by
  constructor
  · by_cases h400 : strContains roomResp "400 Bad Request" = true
    · unfold ReservationServer.roomStep
      rw [if_pos (by simp [h400])]
      simp [h400]
    · by_cases h403 : strContains roomResp "403 Forbidden" = true
      · unfold ReservationServer.roomStep
        rw [if_pos (by simp [h403])]
        simp [h403]
      · unfold ReservationServer.roomStep
        rw [if_neg (by simp [h400, h403])]
        simp [h400, h403]
  · unfold ReservationServer.roomStep
    rw [if_neg (by decide)]

/-- C9: a reserve request with non-positive duration on an existing room
with valid day and hour passes every parameter validation (hour + duration
is at most 17, so the only duration check succeeds) and makes the handler
fall off the end of the mis-indented loop: it produces no response at all
(Python None). -/
theorem C9_nonpositive_duration_no_response (s : RoomState) (name : String)
    (day hour duration : Int) (hday : 1 ≤ day ∧ day ≤ 7)
    (hhour : 9 ≤ hour ∧ hour ≤ 17) (hdur : duration ≤ 0)
    (hroom : s.rooms.contains name = true) :
    RoomServer.get_reserve s name day hour duration = none := by
  unfold RoomServer.get_reserve
  rw [if_neg (not_not_intro hday), if_neg (not_not_intro hhour),
      if_neg (by omega), if_neg (not_not_intro hroom), if_pos hdur]

/-! ### Helper lemmas about rendered error responses -/

theorem badReq_render_contains (m : String) :
    strContains (renderResp (badReq m)) "400 Bad Request" = true := by
  show strContains (("HTTP/1.1 " ++ toString (400 : Nat) ++ " " ++ "Bad Request" ++ "\n\n") ++
    baseHtml "Error" m) "400 Bad Request" = true
  rw [show ("HTTP/1.1 " ++ toString (400 : Nat) ++ " " ++ "Bad Request" ++ "\n\n") =
    "HTTP/1.1 400 Bad Request\n\n" from rfl]
  exact strContains_append_left _ (by decide)

theorem forbidden_render_contains (m : String) :
    strContains (renderResp (forbidden m)) "403 Forbidden" = true := by
  show strContains (("HTTP/1.1 " ++ toString (403 : Nat) ++ " " ++ "Forbidden" ++ "\n\n") ++
    baseHtml "Error" m) "403 Forbidden" = true
  rw [show ("HTTP/1.1 " ++ toString (403 : Nat) ++ " " ++ "Forbidden" ++ "\n\n") =
    "HTTP/1.1 403 Forbidden\n\n" from rfl]
  exact strContains_append_left _ (by decide)

theorem pyIndex_dayNames_valid (day : Int) (h1 : 1 ≤ day) (h7 : day ≤ 7) :
    pyIndex dayNames (day - 1) = some (dayNames.getD (day - 1).toNat "") := by
  interval_cases day <;> decide


/-! ### Shape analysis of the room reserve handler and the coordinator commit -/

theorem roomReserve_none_day_valid (rs : RoomState) (room : String)
    (day hour duration : Int)
    (h : RoomServer.get_reserve rs room day hour duration = none) :
    1 ≤ day ∧ day ≤ 7 := by
  unfold RoomServer.get_reserve at h
  split_ifs at h with h1 h2 h3 h4 h5 h6 <;> first | exact h1 | cases h

theorem roomReserve_some_cases (rs : RoomState) (room : String)
    (day hour duration : Int) (r : Resp) (rs2 : RoomState)
    (h : RoomServer.get_reserve rs room day hour duration = some (r, rs2)) :
    (∃ m, r = badReq m) ∨ (∃ m, r = forbidden m) ∨
    ((1 ≤ day ∧ day ≤ 7) ∧
      r = okResp "Reservation Successful" ("Room " ++ room ++ " is succesfuly reserved.")) := by
  unfold RoomServer.get_reserve at h
  split_ifs at h with h1 h2 h3 h4 h5 h6 <;>
    first
      | (cases h; exact Or.inl ⟨_, rfl⟩)
      | (cases h; exact Or.inr (Or.inl ⟨_, rfl⟩))
      | (cases h; exact Or.inr (Or.inr ⟨h1, rfl⟩))
      | cases h

/-- If the activity response is not a 404 and the room handler produced no
response, the coordinator reads the empty string and proceeds to its room
step with it. -/
theorem coordReserve_eq_roomNone (acts : List String) (rs : RoomState) (cs : CoordState)
    (activity room : String) (day hour duration : Int)
    (hact : strContains (renderResp (ActivityServer.get_check acts activity))
      "404 Not Found" = false)
    (hrm : RoomServer.get_reserve rs room day hour duration = none) :
    ReservationServer.get_reserve acts rs cs activity room day hour duration =
      ⟨(ReservationServer.roomStep cs room activity day hour duration "").1, true, rs,
       (ReservationServer.roomStep cs room activity day hour duration "").2.1,
       (ReservationServer.roomStep cs room activity day hour duration "").2.2⟩ := by
  unfold ReservationServer.get_reserve
  rw [if_neg (by simp [hact]), hrm]

/-- If the activity response is not a 404 and the room handler answered,
the coordinator proceeds to its room step with the rendered response. -/
theorem coordReserve_eq_roomSome (acts : List String) (rs : RoomState) (cs : CoordState)
    (activity room : String) (day hour duration : Int) (r : Resp) (rs2 : RoomState)
    (hact : strContains (renderResp (ActivityServer.get_check acts activity))
      "404 Not Found" = false)
    (hrm : RoomServer.get_reserve rs room day hour duration = some (r, rs2)) :
    ReservationServer.get_reserve acts rs cs activity room day hour duration =
      ⟨(ReservationServer.roomStep cs room activity day hour duration (renderResp r)).1,
       true, rs2,
       (ReservationServer.roomStep cs room activity day hour duration (renderResp r)).2.1,
       (ReservationServer.roomStep cs room activity day hour duration (renderResp r)).2.2⟩ := by
  unfold ReservationServer.get_reserve
  rw [if_neg (by simp [hact]), hrm]

/-- Whenever the composed coordinator reserve commits, the submitted day was
valid and the committed record is exactly the submitted tuple appended with
the fresh id. -/
theorem coordReserve_commit_shape (acts : List String) (rs : RoomState) (cs : CoordState)
    (activity room : String) (day hour duration : Int)
    (hcom : (ReservationServer.get_reserve acts rs cs
      activity room day hour duration).committed = true) :
    (1 ≤ day ∧ day ≤ 7) ∧
    (ReservationServer.get_reserve acts rs cs activity room day hour duration).coordDb =
      ⟨cs.reservations ++
        [⟨cs.reservations.length + 1, room, activity, day, hour, duration⟩]⟩ := by
  by_cases hact : strContains (renderResp (ActivityServer.get_check acts activity))
      "404 Not Found" = true
  · exfalso
    unfold ReservationServer.get_reserve at hcom
    rw [if_pos hact] at hcom
    simp at hcom
  · have hact2 : strContains (renderResp (ActivityServer.get_check acts activity))
        "404 Not Found" = false := by simpa using hact
    rcases hrm : RoomServer.get_reserve rs room day hour duration with _ | ⟨r, rs2⟩
    · rw [coordReserve_eq_roomNone acts rs cs activity room day hour duration hact2 hrm]
        at hcom ⊢
      refine ⟨roomReserve_none_day_valid rs room day hour duration hrm, ?_⟩
      unfold ReservationServer.roomStep
      rw [if_neg (by decide)]
    · rw [coordReserve_eq_roomSome acts rs cs activity room day hour duration r rs2 hact2 hrm]
        at hcom ⊢
      rcases roomReserve_some_cases rs room day hour duration r rs2 hrm with
        ⟨m, rfl⟩ | ⟨m, rfl⟩ | ⟨hday, rfl⟩
      · exfalso
        unfold ReservationServer.roomStep at hcom
        rw [if_pos (by simp [badReq_render_contains m])] at hcom
        simp at hcom
      · exfalso
        unfold ReservationServer.roomStep at hcom
        rw [if_pos (by simp [forbidden_render_contains m])] at hcom
        simp at hcom
      · refine ⟨hday, ?_⟩
        unfold ReservationServer.roomStep at hcom ⊢
        by_cases hc : (strContains (renderResp (okResp "Reservation Successful"
            ("Room " ++ room ++ " is succesfuly reserved."))) "400 Bad Request" ||
          strContains (renderResp (okResp "Reservation Successful"
            ("Room " ++ room ++ " is succesfuly reserved."))) "403 Forbidden") = true
        · rw [if_pos hc] at hcom
          simp at hcom
        · rw [if_neg hc]

/-! ### The aggregation loop of listavailability -/

/-- When the room exists and every queried day is valid, the aggregation
loop queries every item in order and concatenates the labelled bodies. -/
theorem availLoop_all_ok (rs : RoomState) (room : String)
    (hroom : rs.rooms.contains room = true) :
    ∀ (items : List (Int × String)) (acc : String),
      (∀ p ∈ items, 1 ≤ p.1 ∧ p.1 ≤ 7) →
      ReservationServer.availLoop rs room items acc =
        (renderResp (okResp "Availabilities"
          (items.foldl (fun a p => a ++ "For " ++ p.2 ++ ": " ++
            (RoomServer.get_check_availability rs room p.1).body ++ "<br></br>") acc)),
         items.map Prod.fst) := by
  intro items
  induction items with
  | nil => intro acc _; rfl
  | cons p rest ih =>
    intro acc hall
    obtain ⟨d, label⟩ := p
    have hd := hall (d, label) (List.mem_cons_self _ _)
    obtain ⟨heq, h404, h400⟩ := checkavail_ok_render_clean rs room d hroom hd
    unfold ReservationServer.availLoop
    rw [if_neg (by simp [h404, h400])]
    rw [ih _ (fun q hq => hall q (List.mem_cons_of_mem _ hq))]
    simp only [List.foldl_cons, List.map_cons]

/-! ### The effect of a successful reserve on the availability listing -/

theorem reservedHours_insert (s : RoomState) (name : String) (day hour : Int) (n : Nat) :
    RoomServer.reservedHours
      { s with reservations := s.reservations ++
          (List.range n).map (fun (d : Nat) => ⟨name, day, hour + (d : Int)⟩) } name day =
    RoomServer.reservedHours s name day ++
      (List.range n).map (fun (d : Nat) => hour + (d : Int)) := by
  unfold RoomServer.reservedHours
  rw [show ({ s with reservations := s.reservations ++
      (List.range n).map (fun (d : Nat) => (⟨name, day, hour + (d : Int)⟩ : ResRow)) } :
      RoomState).reservations = s.reservations ++
      (List.range n).map (fun (d : Nat) => (⟨name, day, hour + (d : Int)⟩ : ResRow)) from rfl]
  rw [List.filter_append, List.map_append]
  congr 1
  have hall : ∀ a ∈ (List.range n).map
      (fun (d : Nat) => (⟨name, day, hour + (d : Int)⟩ : ResRow)),
      (a.name == name && a.day == day) = true := by
    intro a ha
    rcases List.mem_map.mp ha with ⟨d, hd, rfl⟩
    simp
  rw [List.filter_eq_self.mpr hall, List.map_map]
  rfl

theorem availabilityHours_insert (s : RoomState) (name : String) (day hour : Int) (n : Nat) :
    RoomServer.availabilityHours
      { s with reservations := s.reservations ++
          (List.range n).map (fun (d : Nat) => ⟨name, day, hour + (d : Int)⟩) } name day =
    ((List.range n).map (fun (d : Nat) => hour + (d : Int))).foldl
      (fun acc h => acc.erase h) (RoomServer.availabilityHours s name day) := by
  unfold RoomServer.availabilityHours
  rw [reservedHours_insert, List.foldl_append]

theorem mem_range_map_add (hour : Int) (n : Nat) (x : Int) :
    x ∈ (List.range n).map (fun (d : Nat) => hour + (d : Int)) ↔
      hour ≤ x ∧ x < hour + (n : Int) := by
  simp only [List.mem_map, List.mem_range]
  constructor
  · rintro ⟨d, hd, rfl⟩
    omega
  · intro hx
    exact ⟨(x - hour).toNat, by omega, by omega⟩

/-- C7: the availability listing is always an ordered subset of the hours
9..17 (a sublist of list(range(9,18))), and after a successful reserve of
duration hours starting at hour the free-hour set is exactly the previous
free-hour set minus the interval from hour (inclusive) to hour + duration
(exclusive). -/
theorem C7_availability_after_reserve (s : RoomState) (name : String)
    (day hour duration : Int) (resp : Resp) (s2 : RoomState)
    (h : RoomServer.get_reserve s name day hour duration = some (resp, s2))
    (h200 : resp.status = 200) :
    List.Sublist (RoomServer.availabilityHours s name day) RoomServer.baseHours ∧
    List.Sublist (RoomServer.availabilityHours s2 name day) RoomServer.baseHours ∧
    ∀ x : Int, x ∈ RoomServer.availabilityHours s2 name day ↔
      (x ∈ RoomServer.availabilityHours s name day ∧
        ¬ (hour ≤ x ∧ x < hour + duration)) := by
  refine ⟨availabilityHours_sublist s name day, availabilityHours_sublist s2 name day, ?_⟩
  unfold RoomServer.get_reserve at h
  split_ifs at h with h1 h2 h3 h4 h5 h6 <;>
    first
      | (cases h
         intro x
         have hd : ((duration.toNat : Nat) : Int) = duration := Int.toNat_of_nonneg (by omega)
         rw [availabilityHours_insert s name day hour duration.toNat,
             mem_foldl_erase _ _ (availabilityHours_nodup s name day),
             mem_range_map_add, hd])
      | (cases h; simp [badReq] at h200)
      | (cases h; simp [forbidden] at h200)
      | cases h

theorem C7_availability_after_reserve_witness :
    RoomServer.get_reserve ⟨["A"], [⟨"A", 1, 12⟩]⟩ "A" 1 9 2 =
      some (okResp "Reservation Successful" "Room A is succesfuly reserved.",
        ⟨["A"], [⟨"A", 1, 12⟩, ⟨"A", 1, 9⟩, ⟨"A", 1, 10⟩]⟩) ∧
    List.Sublist (RoomServer.availabilityHours ⟨["A"], [⟨"A", 1, 12⟩]⟩ "A" 1)
      RoomServer.baseHours ∧
    List.Sublist (RoomServer.availabilityHours
      ⟨["A"], [⟨"A", 1, 12⟩, ⟨"A", 1, 9⟩, ⟨"A", 1, 10⟩]⟩ "A" 1)
      RoomServer.baseHours ∧
    ∀ x : Int, x ∈ RoomServer.availabilityHours
        ⟨["A"], [⟨"A", 1, 12⟩, ⟨"A", 1, 9⟩, ⟨"A", 1, 10⟩]⟩ "A" 1 ↔
      (x ∈ RoomServer.availabilityHours ⟨["A"], [⟨"A", 1, 12⟩]⟩ "A" 1 ∧
        ¬ ((9 : Int) ≤ x ∧ x < 9 + 2)) := by
  have h := C7_availability_after_reserve ⟨["A"], [⟨"A", 1, 12⟩]⟩ "A" 1 9 2
    (okResp "Reservation Successful" "Room A is succesfuly reserved.")
    ⟨["A"], [⟨"A", 1, 12⟩, ⟨"A", 1, 9⟩, ⟨"A", 1, 10⟩]⟩ (by decide) rfl
  exact ⟨by decide, h.1, h.2.1, h.2.2⟩

theorem C8_display_round_trip (acts : List String) (rs : RoomState) (cs : CoordState)
    (activity room : String) (day hour duration : Int)
    (hwf : ∀ rec ∈ cs.reservations, rec.id ≤ cs.reservations.length)
    (hcom : (ReservationServer.get_reserve acts rs cs
      activity room day hour duration).committed = true) :
    (1 ≤ day ∧ day ≤ 7) ∧
    ReservationServer.findRec
        (ReservationServer.get_reserve acts rs cs activity room day hour duration).coordDb
        (cs.reservations.length + 1) =
      some ⟨cs.reservations.length + 1, room, activity, day, hour, duration⟩ ∧
    ReservationServer.get_display
        (ReservationServer.get_reserve acts rs cs activity room day hour duration).coordDb
        (cs.reservations.length + 1) =
      some ("HTTP/1.1 200 OK\n\n" ++ baseHtml "Reservation Info"
        (ReservationServer.displayBody room activity
          (dayNames.getD (day - 1).toNat "") hour duration)) := by
  obtain ⟨hday, hdb⟩ := coordReserve_commit_shape acts rs cs activity room day
    hour duration hcom
  have hfind : ReservationServer.findRec
      (⟨cs.reservations ++
        [⟨cs.reservations.length + 1, room, activity, day, hour, duration⟩]⟩ : CoordState)
      (cs.reservations.length + 1) =
      some ⟨cs.reservations.length + 1, room, activity, day, hour, duration⟩ := by
    have hnone : ∀ rec ∈ cs.reservations,
        (rec.id == cs.reservations.length + 1) = false := by
      intro rec hrec
      have hle := hwf rec hrec
      simp only [beq_eq_false_iff_ne]
      omega
    unfold ReservationServer.findRec
    rw [show (⟨cs.reservations ++
        [⟨cs.reservations.length + 1, room, activity, day, hour, duration⟩]⟩ :
        CoordState).reservations = cs.reservations ++
        [⟨cs.reservations.length + 1, room, activity, day, hour, duration⟩] from rfl]
    rw [find?_append_of_none _ _ _ hnone]
    simp [List.find?]
  refine ⟨hday, by rw [hdb]; exact hfind, ?_⟩
  rw [hdb]
  unfold ReservationServer.get_display
  rw [hfind]
  dsimp only
  rw [pyIndex_dayNames_valid day hday.1 hday.2]

theorem C8_display_round_trip_witness :
    (ReservationServer.get_reserve ["Yoga"] ⟨["A101"], []⟩ ⟨[]⟩
      "Yoga" "A101" 2 10 2).committed = true ∧
    ((1 : Int) ≤ 2 ∧ (2 : Int) ≤ 7) ∧
    ReservationServer.findRec
        (ReservationServer.get_reserve ["Yoga"] ⟨["A101"], []⟩ ⟨[]⟩
          "Yoga" "A101" 2 10 2).coordDb 1 =
      some ⟨1, "A101", "Yoga", 2, 10, 2⟩ ∧
    ReservationServer.get_display
        (ReservationServer.get_reserve ["Yoga"] ⟨["A101"], []⟩ ⟨[]⟩
          "Yoga" "A101" 2 10 2).coordDb 1 =
      some ("HTTP/1.1 200 OK\n\n" ++ baseHtml "Reservation Info"
        (ReservationServer.displayBody "A101" "Yoga" "Tuesday" 10 2)) := by
  have h := C8_display_round_trip ["Yoga"] ⟨["A101"], []⟩ ⟨[]⟩ "Yoga" "A101" 2 10 2
    (by intro rec hrec; cases hrec) (by decide)
  exact ⟨by decide, h.1, h.2.1, h.2.2⟩

/-- C6 counterexample: the claim says a request with a day given issues
exactly one availability query; with day = 8 the coordinator evaluates
day_names[7] while building the request list, which raises IndexError
before any query is issued, so the call produces no queries and no
response at all. -/
theorem C6_counterexample :
    ReservationServer.get_listavailability ⟨["A101"], []⟩ "A101" (some 8) = none := by
  decide

/-- C6 amended: listAvailability with no day given plans one availability
query per day 1..7 in day order; when the room exists all seven run and
the response is the 200 page whose body concatenates the seven labelled
per-day results in order; when the room is unknown the very first query
fails, the failing 400 response is relayed verbatim as the whole answer
(no partial result), and only one query was issued. With a day given
whose weekday-label lookup succeeds — in particular every valid day
1..7 — exactly one query is issued, and a failure (unknown room, 400) is
relayed verbatim; for a day whose label lookup fails (such as day = 8)
the lookup raises IndexError before any query. -/
theorem C6_listavailability_aggregate (rs : RoomState) (room : String) :
    (rs.rooms.contains room = true →
      ReservationServer.get_listavailability rs room none =
        some (renderResp (okResp "Availabilities"
          (((List.range 7).map (fun (i : Nat) => ((i : Int) + 1, dayNames.getD i ""))).foldl
            (fun a p => a ++ "For " ++ p.2 ++ ": " ++
              (RoomServer.get_check_availability rs room p.1).body ++ "<br></br>") "")),
          [1, 2, 3, 4, 5, 6, 7])) ∧
    (rs.rooms.contains room = false →
      ReservationServer.get_listavailability rs room none =
        some (renderResp (badReq "Room Does not exist"), [1])) ∧
    (∀ d : Int, 1 ≤ d → d ≤ 7 →
      ∃ out, ReservationServer.get_listavailability rs room (some d) =
        some (out, [d])) ∧
    (rs.rooms.contains room = false → ∀ d : Int, 1 ≤ d → d ≤ 7 →
      ReservationServer.get_listavailability rs room (some d) =
        some (renderResp (badReq "Room Does not exist"), [d])) := by
  refine ⟨?_, ?_, ?_, ?_⟩
  · intro hroom
    unfold ReservationServer.get_listavailability
    rw [availLoop_all_ok rs room hroom _ "" (by decide)]
    rw [show ((List.range 7).map
        (fun (i : Nat) => ((i : Int) + 1, dayNames.getD i ""))).map Prod.fst =
      [1, 2, 3, 4, 5, 6, 7] from rfl]
  · intro habs
    have hca : RoomServer.get_check_availability rs room 1 = badReq "Room Does not exist" := by
      unfold RoomServer.get_check_availability
      rw [if_pos (by rw [habs]; simp)]
    unfold ReservationServer.get_listavailability
    rw [show (List.range 7).map (fun (i : Nat) => ((i : Int) + 1, dayNames.getD i "")) =
      [((1 : Int), "Monday"), (2, "Tuesday"), (3, "Wednesday"), (4, "Thursday"),
       (5, "Friday"), (6, "Saturday"), (7, "Sunday")] from rfl]
    unfold ReservationServer.availLoop
    rw [hca]
    rw [if_pos (by decide)]
  · intro d h1 h7
    rw [ReservationServer.get_listavailability, pyIndex_dayNames_valid d h1 h7]
    dsimp only
    unfold ReservationServer.availLoop
    by_cases hc : (strContains (renderResp (RoomServer.get_check_availability rs room d))
        "404 Not Found" ||
      strContains (renderResp (RoomServer.get_check_availability rs room d))
        "400 Bad Request") = true
    · rw [if_pos hc]
      exact ⟨_, rfl⟩
    · rw [if_neg hc]
      exact ⟨_, rfl⟩
  · intro habs d h1 h7
    have hca : RoomServer.get_check_availability rs room d = badReq "Room Does not exist" := by
      unfold RoomServer.get_check_availability
      rw [if_pos (by rw [habs]; simp)]
    rw [ReservationServer.get_listavailability, pyIndex_dayNames_valid d h1 h7]
    dsimp only
    unfold ReservationServer.availLoop
    rw [hca, if_pos (by decide)]

theorem C6_listavailability_aggregate_witness :
    (ReservationServer.get_listavailability ⟨["A101"], [⟨"A101", 2, 10⟩]⟩ "A101" none =
      some (renderResp (okResp "Availabilities"
        (((List.range 7).map (fun (i : Nat) => ((i : Int) + 1, dayNames.getD i ""))).foldl
          (fun a p => a ++ "For " ++ p.2 ++ ": " ++
            (RoomServer.get_check_availability ⟨["A101"], [⟨"A101", 2, 10⟩]⟩ "A101"
              p.1).body ++ "<br></br>") "")),
        [1, 2, 3, 4, 5, 6, 7])) ∧
    (ReservationServer.get_listavailability ⟨[], []⟩ "X" none =
      some (renderResp (badReq "Room Does not exist"), [1])) ∧
    (∃ out, ReservationServer.get_listavailability ⟨["A101"], []⟩ "A101" (some 2) =
      some (out, [2])) ∧
    (ReservationServer.get_listavailability ⟨[], []⟩ "X" (some 2) =
      some (renderResp (badReq "Room Does not exist"), [2])) :=
  ⟨(C6_listavailability_aggregate ⟨["A101"], [⟨"A101", 2, 10⟩]⟩ "A101").1 (by decide),
   (C6_listavailability_aggregate ⟨[], []⟩ "X").2.1 (by decide),
   (C6_listavailability_aggregate ⟨["A101"], []⟩ "A101").2.2.1 2 (by decide) (by decide),
   (C6_listavailability_aggregate ⟨[], []⟩ "X").2.2.2 (by decide) 2 (by decide) (by decide)⟩

theorem C9_nonpositive_duration_no_response_witness :
    (⟨["A"], []⟩ : RoomState).rooms.contains "A" = true ∧
    RoomServer.get_reserve ⟨["A"], []⟩ "A" 1 9 0 = none :=
  ⟨by decide,
   C9_nonpositive_duration_no_response ⟨["A"], []⟩ "A" 1 9 0 (by decide) (by decide)
     (by decide) (by decide)⟩
